import Mathlib

/-!
Shallow embedding of `src/stummtext.py` (the stummtext repository).

The program renders a jinja2 template over a data mapping, writes the
resulting LaTeX markup to a scratch temporary directory, invokes the
external `pdflatex` engine there, and moves the produced `input.pdf`
artifact to a caller-chosen output path whose extension is normalized
to `.pdf`.

Modelling conventions:
- Python functions that can raise become Lean functions into `Except`.
- The filesystem is an explicit state `FS` (path to content map, set of
  directories, a counter generating fresh temporary-directory names, and
  a counter of spawned child processes). State is threaded explicitly;
  a raised exception still returns the state reached so far, as Python
  exceptions do not roll back filesystem effects.
- The external engine (`pdflatex`) is a black box, modelled as a
  parameter `engine : String -> EngineResult` giving its exit code,
  captured stdout/stderr, and the content of `input.pdf` if it produced
  one in the scratch directory.
- jinja2 templates are embedded as lists of segments: literal text,
  a plain variable reference, or an attribute access on a variable.
  Rendering follows the documented semantics of the default
  `jinja2.Undefined`: a missing plain variable prints as the empty
  string, while attribute access on a missing variable raises
  `UndefinedError` naming the variable. The two templates of the source
  use exactly these constructs.
- `pathlib.Path.with_suffix` is modelled character-exactly for POSIX
  relative and absolute paths (component splitting, the last-dot suffix
  rule, the empty-name `ValueError`).
-/

/-- Embeds the `PaperSize` NamedTuple of the source (width, height, name). -/
structure PaperSize where
  width : String
  height : String
  name : String
deriving DecidableEq, Repr

/-- Embeds the module-level `PAPER_SIZES` dict, in source order, as an
association list from key to `PaperSize`. -/
def PAPER_SIZES : List (String × PaperSize) :=
  [ ("a3", PaperSize.mk "297mm" "420mm" "A3"),
    ("a4", PaperSize.mk "210mm" "297mm" "A4"),
    ("a5", PaperSize.mk "148mm" "210mm" "A5"),
    ("b5", PaperSize.mk "176mm" "250mm" "B5"),
    ("letter", PaperSize.mk "8.5in" "11in" "US Letter"),
    ("legal", PaperSize.mk "8.5in" "14in" "US Legal"),
    ("remarkable2", PaperSize.mk "180mm" "250mm" "reMarkable2"),
    ("phone", PaperSize.mk "70mm" "150mm" "phone") ]

/-- Embeds Python dict subscription `d[k]` on the registry: returns the
value for a present key and raises `KeyError` (a `LookupError`) for an
absent one, carried here as `Except.error k`. The second component is
the registry after the operation: subscription never mutates the dict,
which the model records by returning it unchanged. -/
def dict_getitem (d : List (String × PaperSize)) (k : String) :
    Except String PaperSize × List (String × PaperSize) :=
  match d.lookup k with
  | some v => (Except.ok v, d)
  | none => (Except.error k, d)

/-- A value stored in a data mapping passed to the renderer: the source
uses strings and one `PaperSize` NamedTuple. -/
inductive Value where
  | str (s : String)
  | psize (p : PaperSize)
deriving DecidableEq, Repr

/-- A data mapping (`Dict[str, str]`-ish in the source; really
string-or-PaperSize valued), embedded as an association list. -/
def Data := List (String × Value)

/-- How jinja2 stringifies a value interpolated by `\x7b\x7b var \x7d\x7d`:
strings print as themselves, a NamedTuple prints as its repr. -/
def valueStr : Value → String
  | Value.str s => s
  | Value.psize p =>
      "PaperSize(width=\x27" ++ p.width ++ "\x27, height=\x27" ++ p.height
        ++ "\x27, name=\x27" ++ p.name ++ "\x27)"

/-- Attribute access on a `PaperSize` NamedTuple as jinja2 performs it:
the three named fields resolve to their values; any other attribute is
undefined and prints as the empty string (getattr fails, subscription
fails, jinja2 falls back to its default `Undefined`). -/
def psAttr (p : PaperSize) (f : String) : String :=
  if f = "width" then p.width
  else if f = "height" then p.height
  else if f = "name" then p.name
  else ""

/-- One segment of a jinja2 template: literal text, a plain variable
reference, or an attribute access on a variable. -/
inductive Seg where
  | lit (s : String)
  | var (n : String)
  | attr (n : String) (f : String)
deriving DecidableEq, Repr

/-- Evaluates one template segment against the data mapping, following
default-`Undefined` jinja2 semantics: a literal is itself; a present
variable stringifies; a missing plain variable prints as the empty
string; attribute access on a present value resolves (or prints empty
when the attribute is unknown or the value is a plain string); attribute
access on a missing variable raises `UndefinedError` naming it. -/
def renderSeg (d : Data) : Seg → Except String String
  | Seg.lit s => Except.ok s
  | Seg.var n =>
      match List.lookup n d with
      | some v => Except.ok (valueStr v)
      | none => Except.ok ""
  | Seg.attr n f =>
      match List.lookup n d with
      | some (Value.psize p) => Except.ok (psAttr p f)
      | some (Value.str _) => Except.ok ""
      | none => Except.error n

/-- Renders a segment list left to right, concatenating the pieces and
propagating the first `UndefinedError`. -/
def renderSegs (d : Data) : List Seg → Except String String
  | [] => Except.ok ""
  | seg :: rest =>
      match renderSeg d seg with
      | Except.error e => Except.error e
      | Except.ok s =>
          match renderSegs d rest with
          | Except.error e => Except.error e
          | Except.ok t => Except.ok (s ++ t)

/-- Embeds `render_template(template, data)` of the source, i.e.
`template.render(**data)` under the embedding of jinja2 above. -/
def render_template (template : List Seg) (data : Data) : Except String String :=
  renderSegs data template

/-- Every field referenced by the template (plain or via attribute
access) is present in the data mapping. -/
def refsPresent (t : List Seg) (d : Data) : Bool :=
  t.all fun seg =>
    match seg with
    | Seg.lit _ => true
    | Seg.var n => (List.lookup n d).isSome
    | Seg.attr n _ => (List.lookup n d).isSome

/-- Filesystem-and-process state threaded through the effectful part of
the program: a map from path to file content, the set of existing
directories, a counter from which `tempfile.TemporaryDirectory` draws
fresh names, and a count of child processes spawned so far. -/
structure FS where
  files : String → Option String
  dirs : String → Bool
  tmpNext : Nat
  spawns : Nat

/-- The empty filesystem state of a fresh process: no files, no
directories, counters at zero. -/
def FS.init : FS :=
  { files := fun _ => none, dirs := fun _ => false, tmpNext := 0, spawns := 0 }

/-- The scratch-directory name produced by the n-th call to
`tempfile.TemporaryDirectory` in this model. -/
def tmpName (n : Nat) : String :=
  "/tmp/tmp" ++ toString n

/-- Path join `Path(d) / n`, producing `d/n`. -/
def pjoin (d n : String) : String :=
  String.mk (d.data ++ ('/' :: n.data))

/-- Whether path `p` lies strictly inside directory `d` (its string
starts with `d/`). -/
def underDir (d p : String) : Bool :=
  List.isPrefixOf (d.data ++ ['/']) p.data

/-- Writes (creates or overwrites) the file at `p` with content `c`. -/
def FS.writeFile (fs : FS) (p c : String) : FS :=
  { fs with files := fun q => if q = p then some c else fs.files q }

/-- Removes the file at `p` if present. -/
def FS.removeFile (fs : FS) (p : String) : FS :=
  { fs with files := fun q => if q = p then none else fs.files q }

/-- Creates directory `d`. -/
def FS.mkdir (fs : FS) (d : String) : FS :=
  { fs with dirs := fun q => if q = d then true else fs.dirs q }

/-- The cleanup performed when `tempfile.TemporaryDirectory` exits its
`with` block: the directory and everything inside it are removed. -/
def FS.cleanup (fs : FS) (d : String) : FS :=
  { fs with
    files := fun q => if underDir d q then none else fs.files q,
    dirs := fun q => if q = d then false else fs.dirs q }

/-- The observable behavior of one invocation of the external `pdflatex`
engine on given markup: its exit status, captured stdout and stderr, and
the content of the `input.pdf` it left in the working directory, if any.
The engine is a black box; the program only ever consumes these four
observables. -/
structure EngineResult where
  returncode : Nat
  stdout : String
  stderr : String
  pdf : Option String

/-- The exceptions the program can raise: jinja2 `UndefinedError` naming
the missing key, `subprocess.CalledProcessError` carrying the exit code
and captured output, and `ValueError` from `Path.with_suffix` on an
empty name. -/
inductive Err where
  | undefinedError (key : String)
  | calledProcess (returncode : Nat) (stdout stderr : String)
  | valueError (msg : String)
deriving DecidableEq, Repr

/-- Embeds `run_latex(input_tex, output_path)` of the source.

Steps mirrored from the code: enter `tempfile.TemporaryDirectory`
(a fresh directory name; the counter advances), write `input.tex` inside
it, run `pdflatex -interaction=nonstopmode` there with `check=True` and
captured output (one child process spawned; any `input.pdf` the engine
wrote appears in the scratch directory), then: on non-zero exit the
`CalledProcessError` unwinds the `with` block (the scratch directory is
removed), reaches the `except` clause and is re-raised — the
`breakpoint()` call there is an interactive pause with no
filesystem effect and is not modelled; on zero exit, if `input.pdf`
exists it is renamed onto `output_path` (overwriting), otherwise nothing
happens, and the `with` block removes the scratch directory. -/
def run_latex (engine : String → EngineResult) (input_tex : String)
    (output_path : String) (fs : FS) : Except Err Unit × FS :=
  let tmpdir := tmpName fs.tmpNext
  let fs1 : FS := { fs.mkdir tmpdir with tmpNext := fs.tmpNext + 1 }
  let tex_path := pjoin tmpdir "input.tex"
  let fs2 := fs1.writeFile tex_path input_tex
  let r := engine input_tex
  let fs3 : FS :=
    match r.pdf with
    | some c => { fs2.writeFile (pjoin tmpdir "input.pdf") c with spawns := fs2.spawns + 1 }
    | none => { fs2 with spawns := fs2.spawns + 1 }
  if r.returncode = 0 then
    match fs3.files (pjoin tmpdir "input.pdf") with
    | some c =>
        (Except.ok (),
         (((fs3.removeFile (pjoin tmpdir "input.pdf")).writeFile output_path c).cleanup tmpdir))
    | none => (Except.ok (), fs3.cleanup tmpdir)
  else
    (Except.error (Err.calledProcess r.returncode r.stdout r.stderr), fs3.cleanup tmpdir)

/-- Splits a character list at every occurrence of `c`
(Python `str.split(c)`): used to model path components and the suffix
rule of `pathlib`. -/
def splitChar (c : Char) : List Char → List (List Char)
  | [] => [[]]
  | a :: rest =>
      match splitChar c rest with
      | [] => [[a]]
      | g :: gs => if a = c then [] :: g :: gs else (a :: g) :: gs

/-- The `suffix` of a path name under `pathlib` rules: the part from the
last dot on, provided that dot is neither the first nor past the last
character; otherwise empty. -/
def pySuffix (name : List Char) : List Char :=
  let parts := splitChar '.' name
  let ext := parts.getLastD []
  if 2 ≤ parts.length ∧ ext ≠ [] ∧ ext.length + 1 < name.length then
    '.' :: ext
  else []

/-- Joins path components with `/`. -/
def joinC : List (List Char) → List Char
  | [] => []
  | [c] => c
  | c :: rest => c ++ ('/' :: joinC rest)

/-- Embeds `Path(path).with_suffix(".pdf")` followed by `str(...)` for a
POSIX path string: parse into components (dropping empty and `.`
components), fail with `ValueError` when the name is empty, otherwise
replace the name's `pathlib` suffix with `.pdf` and rebuild the
(normalized) path string. -/
def pyWithSuffixPdf (path : String) : Except String String :=
  let comps := (splitChar '/' path.data).filter fun c => c ≠ [] ∧ c ≠ ['.']
  match comps.getLast? with
  | none => Except.error "empty name"
  | some name =>
      let newname := name.take (name.length - (pySuffix name).length) ++ ".pdf".data
      Except.ok (String.mk
        ((if path.data.head? = some '/' then ['/'] else [])
          ++ joinC (comps.dropLast ++ [newname])))

/-- Embeds `render_latex(tex, filename)` of the source: normalize the
filename's extension to `.pdf` via `Path.with_suffix` and hand the
markup and normalized path to `run_latex`. -/
def render_latex (engine : String → EngineResult) (tex : String)
    (filename : String) (fs : FS) : Except Err Unit × FS :=
  match pyWithSuffixPdf filename with
  | Except.error m => (Except.error (Err.valueError m), fs)
  | Except.ok output_path => run_latex engine tex output_path fs

/-- Embeds the generic combinator `compose(f, g) = lambda x: g(f(x))` of
the source. Python functions that may raise and touch the filesystem are
embedded as Kleisli arrows of the exception-and-state monad, so the
combinator threads the state through `f` and then `g` and propagates the
first exception. -/
def compose {α β γ : Type}
    (f : α → FS → Except Err β × FS) (g : β → FS → Except Err γ × FS) :
    α → FS → Except Err γ × FS :=
  fun x fs =>
    match f x fs with
    | (Except.ok y, fs1) => g y fs1
    | (Except.error e, fs1) => (Except.error e, fs1)

/-- `partial(render_template, template)` lifted into the
exception-and-state embedding: rendering is pure, so the state is
returned unchanged; a jinja2 `UndefinedError` becomes the corresponding
exception. -/
def render_templateM (template : List Seg) : Data → FS → Except Err String × FS :=
  fun data fs =>
    match render_template template data with
    | Except.ok s => (Except.ok s, fs)
    | Except.error e => (Except.error (Err.undefinedError e), fs)

/-- Embeds `process_document(template, data, output_file)` of the
source: the pipeline built with `compose` from
`partial(render_template, template)` and
`partial(render_latex, filename=output_file)`, applied to `data`. -/
def process_document (engine : String → EngineResult) (template : List Seg)
    (data : Data) (output_file : String) (fs : FS) : Except Err Unit × FS :=
  compose (render_templateM template)
    (fun tex => render_latex engine tex output_file) data fs

/-- Modelled from the spec: the direct two-step call sequence
`compile(render(template, data), outputPath)` that section 4.4 and the
design notes say the composed pipeline is extensionally equal to. -/
def process_document_direct (engine : String → EngineResult) (template : List Seg)
    (data : Data) (output_file : String) (fs : FS) : Except Err Unit × FS :=
  match render_template template data with
  | Except.error e => (Except.error (Err.undefinedError e), fs)
  | Except.ok tex => render_latex engine tex output_file fs

/-- The module-level `long_text` raw string of the source (Antarctica
paragraphs). Braces do not occur in it; apostrophes are written as
escapes. -/
def long_text : String :=
  " Antarctica is the coldest, windiest, and most remote\ncontinent on Earth. Located at the South Pole, it\x27s covered almost\nentirely by ice and snow. This massive land is bigger than Europe and\nis surrounded by the Southern Ocean.\n\nAlmost all of Antarctica (about 98\\%) is covered by an ice sheet that\x27s\nvery thick - in some places, it\x27s more than 4 kilometers deep. This\nice sheet contains about 90% of all the world\x27s ice. If it were to\nmelt completely, sea levels worldwide would rise by about 60 meters.\n\nThe weather in Antarctica is extreme. The average winter temperature\nnear the South Pole is about -60°C (-76°F), while coastal areas are\nslightly warmer. In summer, coastal regions might reach just above\nfreezing point. Strong winds, sometimes reaching over 300 kilometers\nper hour, blow across the continent, making it even colder.\n\n"

/-- The literal text of the module-level `template_figure` jinja2
template of the source (a TikZ scatter-plot figure). It contains no
variable references. LaTeX braces are written as escapes. -/
def figText : String :=
  "\n\\begin\x7bfigure\x7d[h]\n\\begin\x7btikzpicture\x7d\n\\begin\x7baxis\x7d[\n    width=\\textwidth,\n    xlabel=X axis,\n    ylabel=Y axis,\n    scatter/classes=\x7b\n        a=\x7bmark=o,draw=black\x7d\n    \x7d\n]\n\\addplot[scatter,only marks,scatter src=explicit symbolic]\n    coordinates \x7b\n        (1,2)[a]\n        (2,4)[a]\n        (3,5)[a]\n        (4,4)[a]\n        (5,7)[a]\n    \x7d;\n\\addplot[red,domain=0:6] \x7b1.2*x + 1\x7d;\n\\end\x7baxis\x7d\n\\end\x7btikzpicture\x7d\n\\caption\x7bScatter plot with linear regression\x7d\n\\label\x7bfig:scatter\x7d\n\\end\x7bfigure\x7d\n"

/-- The module-level `template_figure` jinja2 template: a single literal
segment, since it references no variables. -/
def template_figure : List Seg :=
  [Seg.lit figText]

/-- The module-level `template` jinja2 template of the source, segment
by segment: the document preamble with `pagesize.width`,
`pagesize.height` and `margin` interpolations in the `geometry` options,
then the `title` section header and the `content` body. LaTeX braces are
written as escapes. -/
def template : List Seg :=
  [ Seg.lit "\n\\documentclass\x7barticle\x7d\n\\usepackage[paperwidth=\x7b ",
    Seg.attr "pagesize" "width",
    Seg.lit " \x7d,\n            paperheight=\x7b ",
    Seg.attr "pagesize" "height",
    Seg.lit " \x7d,\n            margin=\x7b ",
    Seg.var "margin",
    Seg.lit " \x7d]\x7bgeometry\x7d\n\n\\usepackage\x7btikz\x7d\n\\usepackage\x7bpgfplots\x7d\n\\pgfplotsset\x7bcompat=1.18\x7d % or whatever recent version you have\n\\usepackage\x7bfloat\x7d % for the [h] placement specifier\n\n\\begin\x7bdocument\x7d\n\\section\x7b ",
    Seg.var "title",
    Seg.lit " \x7d\n",
    Seg.var "content",
    Seg.lit "\n\\end\x7bdocument\x7d\n" ]

/-- `template_figure.render()` as the source computes it while building
`testdata2`; the template is variable-free, so this is its literal
text. -/
def figRendered : String :=
  match render_template template_figure [] with
  | Except.ok s => s
  | Except.error _ => ""

/-- The module-level `testdata2` dict of the source: title, content
(`long_text + template_figure.render() + 3 * long_text`), the
`remarkable2` page size from `PAPER_SIZES`, and a 3mm margin. -/
def testdata2 : Data :=
  [ ("title", Value.str "A nice document"),
    ("content", Value.str
      (long_text ++ figRendered ++ (long_text ++ long_text ++ long_text))),
    ("pagesize", Value.psize
      ((List.lookup "remarkable2" PAPER_SIZES).getD (PaperSize.mk "" "" ""))),
    ("margin", Value.str "3mm") ]

/-- The side-effecting top level of the module (source lines 143-150):
an import runs `process_document(template, data=testdata2,
output_file="test-phone.pdf")` and then, if that did not raise,
`process_document(template, data=testdata2,
output_file="test-remarkable.pdf")`; an exception from the first call
aborts the import, so the second never runs. -/
def moduleInit (engine : String → EngineResult) (fs : FS) : Except Err Unit × FS :=
  match process_document engine template testdata2 "test-phone.pdf" fs with
  | (Except.ok _, fs1) => process_document engine template testdata2 "test-remarkable.pdf" fs1
  | (Except.error e, fs1) => (Except.error e, fs1)

/-- A concrete engine behavior for witnesses: exit status 0 and an
`input.pdf` with fixed content. -/
def engineOk : String → EngineResult :=
  fun _ => EngineResult.mk 0 "" "" (some "PDFBYTES")

/-- A concrete engine behavior for witnesses: exit status 1 with
diagnostic output and no `input.pdf`. -/
def engineFail : String → EngineResult :=
  fun _ => EngineResult.mk 1 "latex error log" "" none

/-- A concrete engine behavior exhibiting the silent-no-output case:
exit status 0 but no `input.pdf` produced. -/
def engineSilent : String → EngineResult :=
  fun _ => EngineResult.mk 0 "" "" none

/-- The state left by `run_latex` when no artifact is delivered (engine
failure, or zero exit without an `input.pdf`): the scratch directory and
everything in it are gone, nothing else changed, and one child process
was spawned. -/
def runStateClean (fs : FS) : FS :=
  { files := fun q => if underDir (tmpName fs.tmpNext) q then none else fs.files q,
    dirs := fun q => if q = tmpName fs.tmpNext then false else fs.dirs q,
    tmpNext := fs.tmpNext + 1,
    spawns := fs.spawns + 1 }

/-- The state left by a successful `run_latex` that delivered artifact
content `c` to `out`: the scratch directory and everything in it are
gone, `out` holds `c`, nothing else changed, and one child process was
spawned. -/
def runStateOk (out c : String) (fs : FS) : FS :=
  { files := fun q =>
      if underDir (tmpName fs.tmpNext) q then none
      else if q = out then some c else fs.files q,
    dirs := fun q => if q = tmpName fs.tmpNext then false else fs.dirs q,
    tmpNext := fs.tmpNext + 1,
    spawns := fs.spawns + 1 }

theorem isPrefixOf_append_self (l t : List Char) : l.isPrefixOf (l ++ t) = true := by
  induction l with
  | nil => simp [List.isPrefixOf]
  | cons a l ih => simp [List.isPrefixOf]

theorem underDir_pjoin (d n : String) : underDir d (pjoin d n) = true := by
  unfold underDir pjoin
  have h : d.data ++ ('/' :: n.data) = (d.data ++ ['/']) ++ n.data := by
    simp
  rw [h]
  exact isPrefixOf_append_self _ _

theorem ne_pjoin_of_not_underDir {d p : String} (h : underDir d p = false)
    (n : String) : p ≠ pjoin d n := by
  intro hp
  rw [hp, underDir_pjoin] at h
  exact Bool.true_eq_false.mp h

theorem pjoin_right_inj {d a b : String} (h : pjoin d a = pjoin d b) : a = b := by
  unfold pjoin at h
  have h2 : d.data ++ ('/' :: a.data) = d.data ++ ('/' :: b.data) :=
    congrArg String.data h
  have h3 := List.append_cancel_left h2
  have h4 : a.data = b.data := by injection h3
  exact String.ext h4

theorem renderSegs_ok_of_present (d : Data) :
    ∀ t : List Seg, refsPresent t d = true → ∃ s, renderSegs d t = Except.ok s := by
  intro t
  induction t with
  | nil => exact fun _ => ⟨"", rfl⟩
  | cons seg rest ih =>
    intro h
    rw [refsPresent, List.all_cons, Bool.and_eq_true] at h
    obtain ⟨h1, h2⟩ := h
    obtain ⟨s, hs⟩ := ih h2
    have hseg : ∃ u, renderSeg d seg = Except.ok u := by
      cases seg with
      | lit s0 => exact ⟨s0, rfl⟩
      | var n =>
        cases hl : List.lookup n d with
        | some v => exact ⟨valueStr v, by simp [renderSeg, hl]⟩
        | none => exact ⟨"", by simp [renderSeg, hl]⟩
      | attr n f =>
        cases hl : List.lookup n d with
        | some v =>
          cases v with
          | str s0 => exact ⟨"", by simp [renderSeg, hl]⟩
          | psize p => exact ⟨psAttr p f, by simp [renderSeg, hl]⟩
        | none => simp [hl] at h1
    obtain ⟨u, hu⟩ := hseg
    exact ⟨u ++ s, by simp [renderSegs, hu, hs]⟩

/-- C1 counterexample. The claim says a template referencing a field
absent from the data fails with a Render error; with the default jinja2
undefined policy used by the source, a plain reference to the missing
field `content2` renders as the empty string and `render_template`
returns successfully. -/
theorem render_missing_plain_field_cex :
    List.lookup "content2" ([] : Data) = none
      ∧ render_template [Seg.var "content2"] [] = Except.ok "" :=
  ⟨rfl, rfl⟩

/-- C1 (amended). If the template references a missing field through an
attribute access (as the built-in template does for `pagesize`), render
fails with an UndefinedError naming the missing key; a plain reference
to a missing field does not fail and renders as the empty string; and no
external process is spawned by rendering: the render stage never touches
the state, and when rendering fails the whole pipeline fails with that
error leaving the state (in particular the spawn count) untouched. -/
theorem render_missing_field_amended (d : Data) (n : String)
    (hn : List.lookup n d = none) :
    (∀ f rest, render_template (Seg.attr n f :: rest) d = Except.error n)
      ∧ (∀ rest s, render_template rest d = Except.ok s →
          render_template (Seg.var n :: rest) d = Except.ok s)
      ∧ (∀ (t : List Seg) (fs : FS), (render_templateM t d fs).2 = fs)
      ∧ (∀ engine t out fs e, render_template t d = Except.error e →
          process_document engine t d out fs = (Except.error (Err.undefinedError e), fs)) := by
  refine ⟨?_, ?_, ?_, ?_⟩
  · intro f rest
    simp [render_template, renderSegs, renderSeg, hn]
  · intro rest s hs
    rw [render_template] at hs
    simp [render_template, renderSegs, renderSeg, hn, hs]
  · intro t fs
    unfold render_templateM
    cases render_template t d <;> rfl
  · intro engine t out fs e he
    simp [process_document, compose, render_templateM, he]

/-- C1 witness: the amended facts at the concrete missing field
`content2` of the concrete scenario. -/
theorem render_missing_field_amended_witness :
    render_template [Seg.attr "content2" "x"] [] = Except.error "content2"
      ∧ render_template [Seg.var "content2"] [] = Except.ok ""
      ∧ (process_document engineOk [Seg.attr "content2" "x"] [] "o.pdf" FS.init).2.spawns = 0 := by
  have h := render_missing_field_amended [] "content2" rfl
  refine ⟨h.1 "x" [], h.2.1 [] "" rfl, ?_⟩
  rw [h.2.2.2 engineOk [Seg.attr "content2" "x"] "o.pdf" FS.init "content2" (h.1 "x" [])]
  rfl

/-- C4. The pipeline that `process_document` builds with the generic
`compose` combinator is extensionally equal to the direct two-step call
sequence `render_latex(render_template(template, data), output_file)`,
with an error from either stage propagated unchanged. -/
theorem process_document_eq_direct (engine : String → EngineResult)
    (t : List Seg) (d : Data) (out : String) (fs : FS) :
    process_document engine t d out fs = process_document_direct engine t d out fs := by
  unfold process_document process_document_direct compose render_templateM
  cases h : render_template t d <;> simp [h]

/-- C7. Subscripting the page-size registry with an unknown key raises
`KeyError` (a `LookupError`) carrying that key and leaves the registry
unchanged; subscripting with a known key returns that key's `PaperSize`
(and also leaves the registry unchanged). -/
theorem paper_size_lookup_spec (k : String) :
    (List.lookup k PAPER_SIZES = none →
      dict_getitem PAPER_SIZES k = (Except.error k, PAPER_SIZES))
      ∧ (∀ p, List.lookup k PAPER_SIZES = some p →
          dict_getitem PAPER_SIZES k = (Except.ok p, PAPER_SIZES)) := by
  constructor
  · intro h
    simp [dict_getitem, h]
  · intro p h
    simp [dict_getitem, h]

/-- C7 witness: the unknown key `a6` fails with `KeyError "a6"` and the
known key `a4` returns the A4 preset, the registry unchanged in both
cases. -/
theorem paper_size_lookup_spec_witness :
    dict_getitem PAPER_SIZES "a6" = (Except.error "a6", PAPER_SIZES)
      ∧ dict_getitem PAPER_SIZES "a4" =
          (Except.ok (PaperSize.mk "210mm" "297mm" "A4"), PAPER_SIZES) :=
  ⟨(paper_size_lookup_spec "a6").1 (by decide),
   (paper_size_lookup_spec "a4").2 (PaperSize.mk "210mm" "297mm" "A4") (by decide)⟩

/-- C8. The registry contains the keys a3, a4, a5, b5, letter, legal,
the small-format `phone` preset (70mm by 150mm) and the larger e-reader
`remarkable2` preset (180mm by 250mm); every preset has non-empty width
and height strings; and `a4` maps to width 210mm, height 297mm. -/
theorem paper_size_registry_contents :
    List.lookup "a4" PAPER_SIZES = some (PaperSize.mk "210mm" "297mm" "A4")
      ∧ (List.lookup "a3" PAPER_SIZES).isSome = true
      ∧ (List.lookup "a5" PAPER_SIZES).isSome = true
      ∧ (List.lookup "b5" PAPER_SIZES).isSome = true
      ∧ (List.lookup "letter" PAPER_SIZES).isSome = true
      ∧ (List.lookup "legal" PAPER_SIZES).isSome = true
      ∧ List.lookup "phone" PAPER_SIZES = some (PaperSize.mk "70mm" "150mm" "phone")
      ∧ List.lookup "remarkable2" PAPER_SIZES =
          some (PaperSize.mk "180mm" "250mm" "reMarkable2")
      ∧ ∀ kv ∈ PAPER_SIZES, kv.2.width ≠ "" ∧ kv.2.height ≠ "" := by
  decide

/-- C9. When every field the template references is present in the data,
rendering succeeds, and any call with those same inputs produces the
same byte-identical markup string: `render_template` is a pure function
of the pair (template, data) — it takes no filesystem state at all. -/
theorem render_template_pure_deterministic (t : List Seg) (d : Data)
    (h : refsPresent t d = true) :
    ∃ s, render_template t d = Except.ok s
      ∧ ∀ t2 d2, t2 = t → d2 = d → render_template t2 d2 = Except.ok s := by
  obtain ⟨s, hs⟩ := renderSegs_ok_of_present d t h
  exact ⟨s, hs, fun t2 d2 ht hd => by rw [ht, hd]; exact hs⟩

/-- C9 witness: a small concrete template and data mapping with all
referenced fields present. -/
theorem render_template_pure_deterministic_witness :
    ∃ s, render_template [Seg.lit "A ", Seg.var "title"]
        [("title", Value.str "T")] = Except.ok s
      ∧ ∀ t2 d2, t2 = [Seg.lit "A ", Seg.var "title"] →
          d2 = [("title", Value.str "T")] → render_template t2 d2 = Except.ok s :=
  render_template_pure_deterministic [Seg.lit "A ", Seg.var "title"]
    [("title", Value.str "T")] (by decide)

theorem pdfPath_ne_texPath (d : String) :
    pjoin d "input.pdf" ≠ pjoin d "input.tex" := by
  intro hh
  have h2 := pjoin_right_inj hh
  simp at h2

theorem runLatex_fail_eq (engine : String → EngineResult) (tex out : String) (fs : FS)
    (h : (engine tex).returncode ≠ 0) :
    run_latex engine tex out fs =
      (Except.error (Err.calledProcess (engine tex).returncode
        (engine tex).stdout (engine tex).stderr), runStateClean fs) := by
  unfold run_latex runStateClean
  cases hpdf : (engine tex).pdf with
  | some c =>
    simp only [hpdf, if_neg h, FS.mkdir, FS.writeFile, FS.cleanup, Prod.mk.injEq]
    refine ⟨trivial, ?_⟩
    simp only [FS.mk.injEq]
    refine ⟨?_, ?_, trivial, trivial⟩
    · funext q
      by_cases hq : underDir (tmpName fs.tmpNext) q = true
      · simp [hq]
      · have hq' : underDir (tmpName fs.tmpNext) q = false := by
          simpa using hq
        simp [hq', ne_pjoin_of_not_underDir hq' "input.pdf",
          ne_pjoin_of_not_underDir hq' "input.tex"]
    · funext q
      by_cases hq : q = tmpName fs.tmpNext <;> simp [hq]
  | none =>
    simp only [hpdf, if_neg h, FS.mkdir, FS.writeFile, FS.cleanup, Prod.mk.injEq]
    refine ⟨trivial, ?_⟩
    simp only [FS.mk.injEq]
    refine ⟨?_, ?_, trivial, trivial⟩
    · funext q
      by_cases hq : underDir (tmpName fs.tmpNext) q = true
      · simp [hq]
      · have hq' : underDir (tmpName fs.tmpNext) q = false := by
          simpa using hq
        simp [hq', ne_pjoin_of_not_underDir hq' "input.tex"]
    · funext q
      by_cases hq : q = tmpName fs.tmpNext <;> simp [hq]

theorem runLatex_ok_pdf_eq (engine : String → EngineResult) (tex out : String) (fs : FS)
    (h0 : (engine tex).returncode = 0) (c : String) (hc : (engine tex).pdf = some c) :
    run_latex engine tex out fs = (Except.ok (), runStateOk out c fs) := by
  unfold run_latex runStateOk
  simp only [hc, h0, if_pos rfl, FS.mkdir, FS.writeFile, FS.removeFile, FS.cleanup,
    if_true, Prod.mk.injEq]
  refine ⟨trivial, ?_⟩
  simp only [FS.mk.injEq]
  refine ⟨?_, ?_, trivial, trivial⟩
  · funext q
    by_cases hq : underDir (tmpName fs.tmpNext) q = true
    · simp [hq]
    · have hq' : underDir (tmpName fs.tmpNext) q = false := by
        simpa using hq
      by_cases ho : q = out
      · simp [hq', ho]
      · simp [hq', ho, ne_pjoin_of_not_underDir hq' "input.pdf",
          ne_pjoin_of_not_underDir hq' "input.tex"]
  · funext q
    by_cases hq : q = tmpName fs.tmpNext <;> simp [hq]

theorem runLatex_ok_nopdf_eq (engine : String → EngineResult) (tex out : String) (fs : FS)
    (h0 : (engine tex).returncode = 0) (hn : (engine tex).pdf = none)
    (hfresh : fs.files (pjoin (tmpName fs.tmpNext) "input.pdf") = none) :
    run_latex engine tex out fs = (Except.ok (), runStateClean fs) := by
  unfold run_latex runStateClean
  simp only [hn, h0, if_pos rfl, FS.mkdir, FS.writeFile, FS.cleanup, if_true,
    pdfPath_ne_texPath, if_false, hfresh, Prod.mk.injEq]
  refine ⟨trivial, ?_⟩
  simp only [FS.mk.injEq]
  refine ⟨?_, ?_, trivial, trivial⟩
  · funext q
    by_cases hq : underDir (tmpName fs.tmpNext) q = true
    · simp [hq]
    · have hq' : underDir (tmpName fs.tmpNext) q = false := by
        simpa using hq
      simp [hq', ne_pjoin_of_not_underDir hq' "input.tex"]
  · funext q
    by_cases hq : q = tmpName fs.tmpNext <;> simp [hq]

theorem joinC_append_last (y : List Char) :
    ∀ xs : List (List Char), ∃ z : List Char, joinC (xs ++ [y]) = z ++ y := by
  intro xs
  induction xs with
  | nil => exact ⟨[], by simp [joinC]⟩
  | cons a xs ih =>
    cases xs with
    | nil => exact ⟨a ++ ['/'], by simp [joinC]⟩
    | cons b xs2 =>
      obtain ⟨z, hz⟩ := ih
      refine ⟨a ++ '/' :: z, ?_⟩
      have harm : joinC ((a :: b :: xs2) ++ [y]) = a ++ '/' :: joinC ((b :: xs2) ++ [y]) := rfl
      rw [harm, hz]
      simp

theorem runLatex_spawns (engine : String → EngineResult) (tex out : String) (fs : FS) :
    ((run_latex engine tex out fs).2).spawns = fs.spawns + 1 := by
  simp only [run_latex]
  repeat' split
  all_goals rfl

theorem pyWithSuffixPdf_shape (path out : String)
    (h : pyWithSuffixPdf path = Except.ok out) : ∃ stem, out = stem ++ ".pdf" := by
  unfold pyWithSuffixPdf at h
  generalize hC : ((splitChar '/' path.data).filter fun c => c ≠ [] ∧ c ≠ ['.']) = L at h
  cases hL : L.getLast? with
  | none =>
    simp only [hL] at h
    exact absurd h (by simp)
  | some name =>
    simp only [hL, Except.ok.injEq] at h
    obtain ⟨z, hz⟩ :=
      joinC_append_last
        (List.take (name.length - (pySuffix name).length) name ++ ".pdf".data) L.dropLast
    rw [hz] at h
    refine ⟨String.mk ((if path.data.head? = some '/' then ['/'] else [])
      ++ z ++ List.take (name.length - (pySuffix name).length) name), ?_⟩
    rw [← h]
    exact congrArg String.mk (by simp)

theorem process_document_spawn_bound (engine : String → EngineResult)
    (t : List Seg) (d : Data) (out : String) (fs : FS) :
    ((process_document engine t d out fs).2).spawns ≤ fs.spawns + 1 := by
  unfold process_document compose render_templateM
  cases h : render_template t d with
  | error e => simp
  | ok tex =>
    simp only []
    unfold render_latex
    cases ho : pyWithSuffixPdf out with
    | error m => simp
    | ok o2 =>
      rw [runLatex_spawns]

theorem moduleInit_spawn_bound (engine : String → EngineResult) (fs : FS) :
    ((moduleInit engine fs).2).spawns ≤ fs.spawns + 2 := by
  unfold moduleInit
  cases h1 : process_document engine template testdata2 "test-phone.pdf" fs with
  | mk r1 fs1 =>
    have b1 : fs1.spawns ≤ fs.spawns + 1 := by
      have hb := process_document_spawn_bound engine template testdata2 "test-phone.pdf" fs
      rw [h1] at hb
      exact hb
    cases r1 with
    | ok u =>
      have b2 := process_document_spawn_bound engine template testdata2 "test-remarkable.pdf" fs1
      simp only []
      omega
    | error e =>
      simp only []
      omega

/-- C2 bug evidence. When the engine exits with status zero but leaves
no `input.pdf` in the scratch workspace, `run_latex` returns
successfully and writes no file anywhere: silently producing nothing is
treated as success, where the claim and the spec require a
CompilationError. -/
theorem run_latex_silent_no_output :
    (run_latex engineSilent "tex" "out.pdf" FS.init).1 = Except.ok ()
      ∧ ∀ q, ((run_latex engineSilent "tex" "out.pdf" FS.init).2).files q = none := by
  rw [runLatex_ok_nopdf_eq engineSilent "tex" "out.pdf" FS.init rfl rfl rfl]
  exact ⟨rfl, fun q => by simp [runStateClean, FS.init]⟩

/-- C3. When the engine exits non-zero, `run_latex` fails with the
`CalledProcessError` carrying the exit status and the captured output
(re-raised after the breakpoint, not suppressed), the file at the output
path is neither created nor truncated, and the same error propagates
unchanged through `process_document` to the caller. -/
theorem run_latex_engine_failure (engine : String → EngineResult) (tex out : String)
    (fs : FS) (h : (engine tex).returncode ≠ 0)
    (hfresh : ∀ p, underDir (tmpName fs.tmpNext) p = true → fs.files p = none) :
    (run_latex engine tex out fs).1 =
        Except.error (Err.calledProcess (engine tex).returncode
          (engine tex).stdout (engine tex).stderr)
      ∧ ((run_latex engine tex out fs).2).files out = fs.files out
      ∧ ∀ (t : List Seg) (d : Data) (output_file : String),
          render_template t d = Except.ok tex →
          pyWithSuffixPdf output_file = Except.ok out →
          (process_document engine t d output_file fs).1 =
            Except.error (Err.calledProcess (engine tex).returncode
              (engine tex).stdout (engine tex).stderr) := by
  rw [runLatex_fail_eq engine tex out fs h]
  refine ⟨rfl, ?_, ?_⟩
  · by_cases hq : underDir (tmpName fs.tmpNext) out = true
    · simp [runStateClean, hq, hfresh out hq]
    · simp [runStateClean, hq]
  · intro t d output_file hrender hout
    unfold process_document compose render_templateM
    rw [hrender]
    simp only []
    unfold render_latex
    rw [hout]
    show (run_latex engine tex out fs).1 = _
    rw [runLatex_fail_eq engine tex out fs h]

/-- C3 witness: a concrete failing engine on the empty filesystem. -/
theorem run_latex_engine_failure_witness :
    (run_latex engineFail "x" "out.pdf" FS.init).1 =
        Except.error (Err.calledProcess 1 "latex error log" "")
      ∧ ((run_latex engineFail "x" "out.pdf" FS.init).2).files "out.pdf" =
          FS.init.files "out.pdf" :=
  ⟨(run_latex_engine_failure engineFail "x" "out.pdf" FS.init
      (by decide) (fun p _ => rfl)).1,
   (run_latex_engine_failure engineFail "x" "out.pdf" FS.init
      (by decide) (fun p _ => rfl)).2.1⟩

/-- C5. When the engine succeeds and produces an artifact, `render_latex`
succeeds and the artifact content ends up at the normalized output path,
which carries the canonical `.pdf` suffix regardless of the suffix the
caller supplied. -/
theorem render_latex_success_normalized (engine : String → EngineResult)
    (tex filename out : String) (fs : FS)
    (hout : pyWithSuffixPdf filename = Except.ok out)
    (h0 : (engine tex).returncode = 0) (c : String) (hc : (engine tex).pdf = some c)
    (hnot : underDir (tmpName fs.tmpNext) out = false) :
    (render_latex engine tex filename fs).1 = Except.ok ()
      ∧ ((render_latex engine tex filename fs).2).files out = some c
      ∧ ∃ stem, out = stem ++ ".pdf" := by
  have hsh := pyWithSuffixPdf_shape filename out hout
  unfold render_latex
  rw [hout]
  show (run_latex engine tex out fs).1 = Except.ok ()
    ∧ ((run_latex engine tex out fs).2).files out = some c ∧ _
  rw [runLatex_ok_pdf_eq engine tex out fs h0 c hc]
  refine ⟨rfl, ?_, hsh⟩
  simp [runStateOk, hnot]

/-- C5 witness: the caller-supplied name `doc.txt` is normalized to
`doc.pdf` and the artifact is delivered there. -/
theorem render_latex_success_normalized_witness :
    (render_latex engineOk "tex" "doc.txt" FS.init).1 = Except.ok ()
      ∧ ((render_latex engineOk "tex" "doc.txt" FS.init).2).files "doc.pdf" =
          some "PDFBYTES"
      ∧ ∃ stem, "doc.pdf" = stem ++ ".pdf" :=
  render_latex_success_normalized engineOk "tex" "doc.txt" "doc.pdf" FS.init
    rfl rfl "PDFBYTES" rfl (by decide)

/-- C6. Every call to `run_latex` uses a freshly generated scratch
workspace (the generator counter advances by one per call), and after
the call returns — successfully, with a silently missing artifact, or
with an engine failure — no file remains inside the workspace and the
workspace directory itself no longer exists. -/
theorem run_latex_workspace_removed (engine : String → EngineResult)
    (tex out : String) (fs : FS)
    (hfresh : ∀ p, underDir (tmpName fs.tmpNext) p = true → fs.files p = none) :
    (∀ p, underDir (tmpName fs.tmpNext) p = true →
        ((run_latex engine tex out fs).2).files p = none)
      ∧ ((run_latex engine tex out fs).2).dirs (tmpName fs.tmpNext) = false
      ∧ ((run_latex engine tex out fs).2).tmpNext = fs.tmpNext + 1 := by
  by_cases h0 : (engine tex).returncode = 0
  · cases hc : (engine tex).pdf with
    | some c =>
      rw [runLatex_ok_pdf_eq engine tex out fs h0 c hc]
      refine ⟨fun p hp => by simp [runStateOk, hp], by simp [runStateOk], rfl⟩
    | none =>
      rw [runLatex_ok_nopdf_eq engine tex out fs h0 hc
        (hfresh _ (underDir_pjoin (tmpName fs.tmpNext) "input.pdf"))]
      refine ⟨fun p hp => by simp [runStateClean, hp], by simp [runStateClean], rfl⟩
  · rw [runLatex_fail_eq engine tex out fs h0]
    refine ⟨fun p hp => by simp [runStateClean, hp], by simp [runStateClean], rfl⟩

/-- C6 witness: after a successful run on the empty filesystem, the
staged `input.tex` is gone and the scratch directory no longer exists. -/
theorem run_latex_workspace_removed_witness :
    ((run_latex engineOk "t" "o.pdf" FS.init).2).files
        (pjoin (tmpName 0) "input.tex") = none
      ∧ ((run_latex engineOk "t" "o.pdf" FS.init).2).dirs (tmpName 0) = false
      ∧ ((run_latex engineOk "t" "o.pdf" FS.init).2).tmpNext = 1 := by
  have h := run_latex_workspace_removed engineOk "t" "o.pdf" FS.init (fun p _ => rfl)
  exact ⟨h.1 (pjoin (tmpName 0) "input.tex")
    (underDir_pjoin (tmpName 0) "input.tex"), h.2.1, h.2.2⟩

/-- C10. Importing the module runs two `process_document` calls at top
level, both passing `testdata2` (the first writing `test-phone.pdf`, the
second `test-remarkable.pdf`): when the engine succeeds, the import
spawns exactly two engine processes and leaves both artifacts in the
current directory, and for every engine behavior and starting state
the import spawns at most two engine processes. -/
theorem module_import_effects (engine : String → EngineResult)
    (h0 : ∀ s, (engine s).returncode = 0)
    (hp : ∀ s, ∃ c, (engine s).pdf = some c) :
    (moduleInit engine FS.init).1 = Except.ok ()
      ∧ ((moduleInit engine FS.init).2).spawns = 2
      ∧ (((moduleInit engine FS.init).2).files "test-phone.pdf").isSome = true
      ∧ (((moduleInit engine FS.init).2).files "test-remarkable.pdf").isSome = true
      ∧ ∀ (e2 : String → EngineResult) (fs2 : FS),
          ((moduleInit e2 fs2).2).spawns ≤ fs2.spawns + 2 := by
  obtain ⟨s, hs⟩ := renderSegs_ok_of_present testdata2 template (by decide)
  obtain ⟨c1, hc1⟩ := hp s
  have hfirst : process_document engine template testdata2 "test-phone.pdf" FS.init =
      (Except.ok (), runStateOk "test-phone.pdf" c1 FS.init) := by
    unfold process_document compose render_templateM
    rw [show render_template template testdata2 = Except.ok s from hs]
    simp only []
    unfold render_latex
    rw [show pyWithSuffixPdf "test-phone.pdf" = Except.ok "test-phone.pdf" from rfl]
    exact runLatex_ok_pdf_eq engine s "test-phone.pdf" FS.init (h0 s) c1 hc1
  have hsecond : process_document engine template testdata2 "test-remarkable.pdf"
        (runStateOk "test-phone.pdf" c1 FS.init) =
      (Except.ok (),
       runStateOk "test-remarkable.pdf" c1 (runStateOk "test-phone.pdf" c1 FS.init)) := by
    unfold process_document compose render_templateM
    rw [show render_template template testdata2 = Except.ok s from hs]
    simp only []
    unfold render_latex
    rw [show pyWithSuffixPdf "test-remarkable.pdf" = Except.ok "test-remarkable.pdf" from rfl]
    exact runLatex_ok_pdf_eq engine s "test-remarkable.pdf" _ (h0 s) c1 hc1
  have hmod : moduleInit engine FS.init =
      (Except.ok (),
       runStateOk "test-remarkable.pdf" c1 (runStateOk "test-phone.pdf" c1 FS.init)) := by
    unfold moduleInit
    rw [hfirst]
    exact hsecond
  rw [hmod]
  refine ⟨rfl, rfl, ?_, ?_, fun e2 fs2 => moduleInit_spawn_bound e2 fs2⟩
  · have e1 : underDir (tmpName 1) "test-phone.pdf" = false := by decide
    have e0 : underDir (tmpName 0) "test-phone.pdf" = false := by decide
    simp [runStateOk, FS.init, e1, e0]
  · have e1 : underDir (tmpName 1) "test-remarkable.pdf" = false := by decide
    simp [runStateOk, FS.init, e1]

/-- C10 witness: a concrete always-succeeding engine. -/
theorem module_import_effects_witness :
    (moduleInit engineOk FS.init).1 = Except.ok ()
      ∧ ((moduleInit engineOk FS.init).2).spawns = 2
      ∧ (((moduleInit engineOk FS.init).2).files "test-phone.pdf").isSome = true
      ∧ (((moduleInit engineOk FS.init).2).files "test-remarkable.pdf").isSome = true := by
  have h := module_import_effects engineOk (fun s => rfl) (fun s => ⟨"PDFBYTES", rfl⟩)
  exact ⟨h.1, h.2.1, h.2.2.1, h.2.2.2.1⟩
